import Mathlib

/-
  Verification of the pymambo BLE drone protocol client (src/Mambo.py).

  The Python source is shallowly embedded below: pure fragments become Lean
  functions, mutation of the Mambo object becomes explicit state passing on a
  `Mambo` structure, Python exceptions become `Except`/`Option` results, and
  machine bytes are `Nat` values with explicit `% 256` where the source wraps.
  The command dictionaries (common.xml / minidrone.xml) are external inputs of
  the program; they are modelled as explicit `ProjectDef` values that every
  embedded lookup takes as arguments, mirroring the untangle object tree the
  source walks.  Wall-clock waiting (smart_sleep) and the asynchronous BLE
  delegate are modelled by an explicit schedule function saying after which
  write attempt an ack arrives, and the time-bounded fly_direct loop by an
  explicit iteration count.  Transport writes are modelled as always
  succeeding (none of the verified scenarios involves a link-level error).
-/

namespace Pymambo

/-- A Python runtime value as stored in the sensor fields: the source stores
ints, strings, floats (kept as their raw little-endian bytes, since no claim
inspects float arithmetic), raw byte strings and None. -/
inductive PyVal where
  | int : Int → PyVal
  | str : String → PyVal
  | float : List Nat → PyVal
  | bytes : List Nat → PyVal
  | none : PyVal
deriving DecidableEq, Repr

/-- Python dict lookup on an association list (`d[k]` guarded by `k in d`):
first binding for the key, if any. -/
def dictGet {κ ν : Type} [DecidableEq κ] : List (κ × ν) → κ → Option ν
  | [], _ => Option.none
  | (k0, v) :: rest, k => if k0 = k then some v else dictGet rest k

/-- Python dict assignment `d[k] = v`: replace the binding if the key is
present, otherwise append it. -/
def dictInsert {κ ν : Type} [DecidableEq κ] : List (κ × ν) → κ → ν → List (κ × ν)
  | [], k, v => [(k, v)]
  | (k0, v0) :: rest, k, v =>
    if k0 = k then (k, v) :: rest else (k0, v0) :: dictInsert rest k v

/-- Python list indexing `lst[i]`: non-negative indices from the front,
negative indices from the back, IndexError (`Option.none`) when out of
range. -/
def pyListGet {α : Type} (lst : List α) (i : Int) : Option α :=
  if 0 ≤ i then lst.get? i.toNat
  else if 0 ≤ (lst.length : Int) + i then lst.get? ((lst.length : Int) + i).toNat
  else Option.none

/-- The MamboSensors store (src/Mambo.py, class MamboSensors.__init__):
last known sensor values, plus the open-ended dict for unrecognized names. -/
structure MamboSensors where
  battery : PyVal
  flying_state : PyVal
  unknown_sensors : List (String × PyVal)
  gun_id : PyVal
  gun_state : PyVal
  claw_id : PyVal
  claw_state : PyVal
  speed_x : PyVal
  speed_y : PyVal
  speed_z : PyVal
  speed_ts : PyVal
  altitude : PyVal
  altitude_ts : PyVal
  quaternion_w : PyVal
  quaternion_x : PyVal
  quaternion_y : PyVal
  quaternion_z : PyVal
  quaternion_ts : PyVal
deriving DecidableEq, Repr

/-- MamboSensors.__init__ defaults: full battery, landed, everything else
zero / None. -/
def MamboSensors.init : MamboSensors where
  battery := PyVal.int 100
  flying_state := PyVal.str "landed"
  unknown_sensors := []
  gun_id := PyVal.int 0
  gun_state := PyVal.none
  claw_id := PyVal.int 0
  claw_state := PyVal.none
  speed_x := PyVal.int 0
  speed_y := PyVal.int 0
  speed_z := PyVal.int 0
  speed_ts := PyVal.int 0
  altitude := PyVal.int 0
  altitude_ts := PyVal.int 0
  quaternion_w := PyVal.int 0
  quaternion_x := PyVal.int 0
  quaternion_y := PyVal.int 0
  quaternion_z := PyVal.int 0
  quaternion_ts := PyVal.int 0

/-- MamboSensors.update (src/Mambo.py lines 85-139).  `sensor_enum` is the
enum part of the sensor tuple cache (the Python code passes the whole
sensor_tuple_cache dict; only its `(name, "enum")` keys can match here, so the
embedding passes exactly those bindings).  The enum branch mirrors the source
comparison `value > len(...)`: strictly larger indices become the sentinel
string, while `value == len(...)` falls into the list indexing and raises
IndexError, modelled as `Option.none`.  Only ints reach the enum branch in the
program (enum fields always decode via a single unsigned byte). -/
def MamboSensors.update (s : MamboSensors) (name : String) (value : PyVal)
    (sensor_enum : List ((String × String) × List String)) : Option MamboSensors :=
  let translated : Option PyVal :=
    match dictGet sensor_enum (name, "enum") with
    | some enum_list =>
      match value with
      | PyVal.int n =>
        if n > (enum_list.length : Int) then some (PyVal.str "UNKNOWN_ENUM_VALUE")
        else
          match pyListGet enum_list n with
          | some enum_value => some (PyVal.str enum_value)
          | Option.none => Option.none
      | _ => Option.none
    | Option.none => some value
  match translated with
  | Option.none => Option.none
  | some value =>
    some (
      if name = "BatteryStateChanged_battery_percent" then { s with battery := value }
      else if name = "FlyingStateChanged_state" then { s with flying_state := value }
      else if name = "ClawState_id" then { s with claw_id := value }
      else if name = "ClawState_state" then { s with claw_state := value }
      else if name = "GunState_id" then { s with gun_id := value }
      else if name = "GunState_state" then { s with gun_state := value }
      else if name = "DroneSpeed_speed_x" then { s with speed_x := value }
      else if name = "DroneSpeed_speed_y" then { s with speed_y := value }
      else if name = "DroneSpeed_speed_z" then { s with speed_z := value }
      else if name = "DroneSpeed_ts" then { s with speed_ts := value }
      else if name = "DroneAltitude_altitude" then { s with altitude := value }
      else if name = "DroneAltitude_altitude_ts" then { s with altitude_ts := value }
      else if name = "DroneQuaternion_q_w" then { s with quaternion_w := value }
      else if name = "DroneQuaternion_q_x" then { s with quaternion_x := value }
      else if name = "DroneQuaternion_q_y" then { s with quaternion_y := value }
      else if name = "DroneQuaternion_q_z" then { s with quaternion_z := value }
      else if name = "DroneQuaternion_tz" then { s with quaternion_ts := value }
      else { s with unknown_sensors := dictInsert s.unknown_sensors name value })

/-- One argument declaration of a command in the XML dictionaries: its name,
its type string ("u8", "enum", ...) and, for enum arguments, the ordered list
of enum member names. -/
structure ArgDef where
  name : String
  type : String
  enums : List String
deriving DecidableEq, Repr

/-- One cmd element of the XML dictionaries. An absent arg child (a pure
notification command) is the empty `args` list. -/
structure CmdDef where
  id : Nat
  name : String
  args : List ArgDef
deriving DecidableEq, Repr

/-- One myclass element of the XML dictionaries. -/
structure ClassDef where
  id : Nat
  name : String
  cmds : List CmdDef
deriving DecidableEq, Repr

/-- One parsed XML dictionary (untangle.parse result): the project id and its
classes.  These files (common.xml / minidrone.xml) are external inputs of the
program, so the embedded lookups are parameterized over two of these. -/
structure ProjectDef where
  id : Nat
  classes : List ClassDef
deriving DecidableEq, Repr

/-- The name search of _get_command_tuple inside one dictionary
(src/Mambo.py lines 729-744 and 747-762): scan classes for the class name,
inside a match scan cmds for the command name, first hit wins; the class loop
keeps scanning when the inner loop finds nothing. -/
def find_command_in_project (proj : ProjectDef) (myclass cmd : String) :
    Option (Nat × Nat × Nat) :=
  proj.classes.findSome? fun child =>
    if child.name = myclass then
      child.cmds.findSome? fun subchild =>
        if subchild.name = cmd then some (proj.id, child.id, subchild.id) else Option.none
    else Option.none

/-- Mambo._get_command_tuple (src/Mambo.py lines 716-762) made explicit in the
cache and the two dictionaries.  The returned Bool records whether the backing
dictionaries were scanned (false exactly on a cache hit).  Note the source
caches a result only in the two found branches: when both searches fail the
function falls off the end (returning None) and the cache is left untouched. -/
def get_command_tuple (mini common : ProjectDef)
    (cache : List ((String × String) × (Nat × Nat × Nat))) (myclass cmd : String) :
    Option (Nat × Nat × Nat) × List ((String × String) × (Nat × Nat × Nat)) × Bool :=
  match dictGet cache (myclass, cmd) with
  | some t => (some t, cache, false)
  | Option.none =>
    match find_command_in_project mini myclass cmd with
    | some t => (some t, dictInsert cache (myclass, cmd) t, true)
    | Option.none =>
      match find_command_in_project common myclass cmd with
      | some t => (some t, dictInsert cache (myclass, cmd) t, true)
      | Option.none => (Option.none, cache, true)

/-- Index of the first enum member with the given name (the enumerate loop of
_get_command_tuple_with_enum). -/
def find_enum_index_from (ename : String) : List String → Nat → Option Nat
  | [], _ => Option.none
  | e :: rest, i => if e = ename then some i else find_enum_index_from ename rest (i + 1)

/-- The name search of _get_command_tuple_with_enum inside one dictionary
(src/Mambo.py lines 781-804 and 807-830): additionally scans the matching
command arguments for an enum argument holding the requested member name. -/
def find_enum_in_project (proj : ProjectDef) (myclass cmd enum_name : String) :
    Option ((Nat × Nat × Nat) × Nat) :=
  proj.classes.findSome? fun child =>
    if child.name = myclass then
      child.cmds.findSome? fun subchild =>
        if subchild.name = cmd then
          subchild.args.findSome? fun arg_child =>
            if arg_child.type = "enum" then
              (find_enum_index_from enum_name arg_child.enums 0).map
                fun e_idx => ((proj.id, child.id, subchild.id), e_idx)
            else Option.none
        else Option.none
    else Option.none

/-- Mambo._get_command_tuple_with_enum (src/Mambo.py lines 765-830).  The
source keys these 3-part names into the same command_tuple_cache dict; since
2-tuples and 3-tuples can never be equal keys, the embedding gives them their
own typed map.  As in `get_command_tuple`, a fully failed search falls off the
end of the function and caches nothing. -/
def get_command_tuple_with_enum (mini common : ProjectDef)
    (cache : List ((String × String × String) × ((Nat × Nat × Nat) × Nat)))
    (myclass cmd enum_name : String) :
    Option ((Nat × Nat × Nat) × Nat)
      × List ((String × String × String) × ((Nat × Nat × Nat) × Nat)) × Bool :=
  match dictGet cache (myclass, cmd, enum_name) with
  | some t => (some t, cache, false)
  | Option.none =>
    match find_enum_in_project mini myclass cmd enum_name with
    | some t => (some t, dictInsert cache (myclass, cmd, enum_name) t, true)
    | Option.none =>
      match find_enum_in_project common myclass cmd enum_name with
      | some t => (some t, dictInsert cache (myclass, cmd, enum_name) t, true)
      | Option.none => (Option.none, cache, true)

/-- Sensor tuple cache (self.sensor_tuple_cache).  The Python dict holds two
kinds of keys that can never collide: header 4-tuples mapping to the
(sensor_names, data_sizes) pair — possibly the cached (None, None) miss — and
(sensor_name, "enum") string pairs mapping to enum member lists.  The
embedding separates them into two typed maps of one structure. -/
structure SensorTupleCache where
  tuples : List ((Nat × Nat × Nat × Nat) × Option (List String × List (Option String)))
  enums : List ((String × String) × List String)
deriving DecidableEq, Repr

/-- The empty sensor tuple cache of Mambo.__init__. -/
def SensorTupleCache.init : SensorTupleCache where
  tuples := []
  enums := []

/-- The arg loop of _parse_sensor_tuple (src/Mambo.py lines 573-588): builds
the sensor name and data size lists and collects the enum cache insertions
performed along the way, in loop order. -/
def build_sensor_args (cmd_name : String) :
    List ArgDef → List String × List (Option String) × List ((String × String) × List String)
  | [] => ([], [], [])
  | arg_child :: rest =>
    let sensor_name := cmd_name ++ "_" ++ arg_child.name
    let (ns, ds, es) := build_sensor_args cmd_name rest
    (sensor_name :: ns, some arg_child.type :: ds,
      if arg_child.type = "enum" then ((sensor_name, "enum"), arg_child.enums) :: es else es)

/-- The id search of _parse_sensor_tuple inside one dictionary (src/Mambo.py
lines 561-597 and 602-638): guarded by the project id, scan classes by id,
then cmds by id; a command with no arg children yields its bare name with a
None data size. -/
def find_sensor_in_project (proj : ProjectDef) (project_id myclass_id cmd_id : Nat) :
    Option (List String × List (Option String) × List ((String × String) × List String)) :=
  if project_id = proj.id then
    proj.classes.findSome? fun c =>
      if c.id = myclass_id then
        c.cmds.findSome? fun cmd_child =>
          if cmd_child.id = cmd_id then
            some (if cmd_child.args.isEmpty then ([cmd_child.name], [Option.none], [])
                  else build_sensor_args cmd_child.name cmd_child.args)
          else Option.none
      else Option.none
  else Option.none

/-- Mambo._parse_sensor_tuple (src/Mambo.py lines 544-643).  Takes the full
6-value header tuple, keys the cache on its last four values, and — unlike
_get_command_tuple — caches the (None, None) miss as well.  The returned Bool
records whether the backing dictionaries were scanned. -/
def parse_sensor_tuple (mini common : ProjectDef) (cache : SensorTupleCache) :
    Nat × Nat × Nat × Nat × Nat × Nat →
    Option (List String × List (Option String)) × SensorTupleCache × Bool
  | (_ack_id, _packet_id, project_id, myclass_id, cmd_id, extra_id) =>
    match dictGet cache.tuples (project_id, myclass_id, cmd_id, extra_id) with
    | some v => (v, cache, false)
    | Option.none =>
      match find_sensor_in_project mini project_id myclass_id cmd_id with
      | some (ns, ds, adds) =>
        (some (ns, ds),
         { tuples := dictInsert cache.tuples (project_id, myclass_id, cmd_id, extra_id)
             (some (ns, ds)),
           enums := adds.foldl (fun e kv => dictInsert e kv.1 kv.2) cache.enums },
         true)
      | Option.none =>
        match find_sensor_in_project common project_id myclass_id cmd_id with
        | some (ns, ds, adds) =>
          (some (ns, ds),
           { tuples := dictInsert cache.tuples (project_id, myclass_id, cmd_id, extra_id)
               (some (ns, ds)),
             enums := adds.foldl (fun e kv => dictInsert e kv.1 kv.2) cache.enums },
           true)
        | Option.none =>
          (Option.none,
           { cache with
             tuples := dictInsert cache.tuples (project_id, myclass_id, cmd_id, extra_id)
               Option.none },
           true)

/-- self.data_types (src/Mambo.py lines 252-257). -/
def data_types : List (String × Nat) :=
  [("ACK", 1), ("DATA_NO_ACK", 2), ("LOW_LATENCY_DATA", 3), ("DATA_WITH_ACK", 4)]

/-- Lookup in the data_types dict (all uses in the source hit a present key). -/
def data_type (k : String) : Nat := (dictGet data_types k).getD 0

/-- self.characteristic_send_counter (src/Mambo.py lines 202-208): one byte
counter per logical send channel. -/
structure CharacteristicSendCounter where
  SEND_NO_ACK : Nat
  SEND_WITH_ACK : Nat
  SEND_HIGH_PRIORITY : Nat
  ACK_COMMAND : Nat
  RECEIVE_WITH_ACK : Nat
deriving DecidableEq, Repr

/-- self.command_received (src/Mambo.py lines 260-264): the per-channel ack
flags set by the BLE delegate. -/
structure CommandReceived where
  SEND_WITH_ACK : Bool
  SEND_HIGH_PRIORITY : Bool
  ACK_COMMAND : Bool
deriving DecidableEq, Repr

/-- The mutable state of one Mambo object that the verified claims touch: the
two parsed dictionaries, the channel counters, the ack flags, the sensor store
and the two lookup caches.  BLE handles and characteristics live outside the
embedding (writes are returned as explicit packet lists instead). -/
structure Mambo where
  minidrone_commands : ProjectDef
  common_commands : ProjectDef
  characteristic_send_counter : CharacteristicSendCounter
  command_received : CommandReceived
  sensors : MamboSensors
  command_tuple_cache : List ((String × String) × (Nat × Nat × Nat))
  command_tuple_enum_cache : List ((String × String × String) × ((Nat × Nat × Nat) × Nat))
  sensor_tuple_cache : SensorTupleCache
deriving DecidableEq, Repr

/-- Mambo.__init__ (src/Mambo.py lines 159-274): counters at zero, flags
False, caches empty, default sensors; the dictionaries are the parse results
of the two XML files. -/
def Mambo.init (mini common : ProjectDef) : Mambo where
  minidrone_commands := mini
  common_commands := common
  characteristic_send_counter :=
    { SEND_NO_ACK := 0, SEND_WITH_ACK := 0, SEND_HIGH_PRIORITY := 0,
      ACK_COMMAND := 0, RECEIVE_WITH_ACK := 0 }
  command_received :=
    { SEND_WITH_ACK := false, SEND_HIGH_PRIORITY := false, ACK_COMMAND := false }
  sensors := MamboSensors.init
  command_tuple_cache := []
  command_tuple_enum_cache := []
  sensor_tuple_cache := SensorTupleCache.init

/-- Mambo._set_command_received (src/Mambo.py lines 706-714).  The source is
only ever called with the three channel names below. -/
def Mambo.set_command_received (st : Mambo) (channel : String) (val : Bool) : Mambo :=
  if channel = "SEND_WITH_ACK" then
    { st with command_received := { st.command_received with SEND_WITH_ACK := val } }
  else if channel = "SEND_HIGH_PRIORITY" then
    { st with command_received := { st.command_received with SEND_HIGH_PRIORITY := val } }
  else if channel = "ACK_COMMAND" then
    { st with command_received := { st.command_received with ACK_COMMAND := val } }
  else st

/-- The counter update `(counter + 1) % 256` performed inline at every send
site of the source. -/
def increment_counter (c : Nat) : Nat := (c + 1) % 256

/-- struct.pack "<b" of an in-range Python int: the twos-complement byte. -/
def i8byte (v : Int) : Nat := (v % 256).toNat

/-- struct.pack "<I": four little-endian bytes. -/
def u32le (n : Nat) : List Nat :=
  [n % 256, n / 256 % 256, n / 256 ^ 2 % 256, n / 256 ^ 3 % 256]

/-- self.max_packet_retries (src/Mambo.py line 274). -/
def max_packet_retries : Nat := 3

/-- The retry loop of Mambo._send_command_packet_ack (src/Mambo.py lines
860-872).  `sched n = true` means an ACK_COMMAND_SENT BLE event is delivered
during the smart_sleep that follows the n-th write, upon which the delegate
(MamboDelegate.handleNotification, lines 36-39) sets the SEND_WITH_ACK
received flag; once set, the flag stays set for the rest of the cycle.
`fuel` is max_packet_retries minus the current try count, so the while guard
`try_num < max_packet_retries` is `fuel > 0`.  Returns the final flag value
and the list of transport writes performed. -/
def send_command_packet_ack_loop (packet : List Nat) (sched : Nat → Bool)
    (received : Bool) (try_num : Nat) : Nat → Bool × List (List Nat)
  | 0 => (received, [])
  | fuel + 1 =>
    if received then (received, [])
    else
      let try_num' := try_num + 1
      let received' := received || sched try_num'
      let (res, writes) := send_command_packet_ack_loop packet sched received' try_num' fuel
      (res, packet :: writes)

/-- Mambo._send_command_packet_ack (src/Mambo.py lines 853-872): clear the
SEND_WITH_ACK flag, run the bounded retry loop, return the flag. -/
def send_command_packet_ack (packet : List Nat) (sched : Nat → Bool) :
    Bool × List (List Nat) :=
  send_command_packet_ack_loop packet sched false 0 max_packet_retries

/-- Mambo._send_noparam_command_packet_ack (src/Mambo.py lines 876-891):
increment the SEND_WITH_ACK counter, build the 6-byte frame carrying it, run
the acknowledged send.  The returned Mambo also records the final flag value
(the loop left self.command_received at exactly the returned boolean). -/
def send_noparam_command_packet_ack (st : Mambo) (command_tuple : Nat × Nat × Nat)
    (sched : Nat → Bool) : Bool × Mambo × List (List Nat) :=
  let c := increment_counter st.characteristic_send_counter.SEND_WITH_ACK
  let packet := [data_type "DATA_WITH_ACK", c,
                 command_tuple.1, command_tuple.2.1, command_tuple.2.2, 0]
  let (res, writes) := send_command_packet_ack packet sched
  (res,
   { st with
     characteristic_send_counter := { st.characteristic_send_counter with SEND_WITH_ACK := c },
     command_received := { st.command_received with SEND_WITH_ACK := res } },
   writes)

/-- Mambo._send_enum_command_packet_ack (src/Mambo.py lines 895-918): like the
noparam send but with a 4-byte little-endian enum index, optionally prefixed
by a one-byte accessory id. -/
def send_enum_command_packet_ack (st : Mambo) (command_tuple : Nat × Nat × Nat)
    (enum_value : Nat) (usb_id : Option Nat) (sched : Nat → Bool) :
    Bool × Mambo × List (List Nat) :=
  let c := increment_counter st.characteristic_send_counter.SEND_WITH_ACK
  let packet :=
    match usb_id with
    | Option.none =>
      [data_type "DATA_WITH_ACK", c,
       command_tuple.1, command_tuple.2.1, command_tuple.2.2, 0] ++ u32le enum_value
    | some u =>
      [data_type "DATA_WITH_ACK", c,
       command_tuple.1, command_tuple.2.1, command_tuple.2.2, 0, u % 256] ++ u32le enum_value
  let (res, writes) := send_command_packet_ack packet sched
  (res,
   { st with
     characteristic_send_counter := { st.characteristic_send_counter with SEND_WITH_ACK := c },
     command_received := { st.command_received with SEND_WITH_ACK := res } },
   writes)

/-- Mambo._ack_packet (src/Mambo.py lines 667-681): increment the ACK_COMMAND
counter and write the 3-byte ack-of-receipt frame for the given inbound
sequence number. -/
def ack_packet (st : Mambo) (packet_id : Nat) : Mambo × List Nat :=
  let c := increment_counter st.characteristic_send_counter.ACK_COMMAND
  ({ st with
     characteristic_send_counter := { st.characteristic_send_counter with ACK_COMMAND := c } },
   [data_type "ACK", c, packet_id])

/-- struct.unpack_from("<BBBBBB", data): the first six bytes of the inbound
frame, or a struct.error (`Option.none`) when fewer than six are present. -/
def unpack_header (data : List Nat) : Option (Nat × Nat × Nat × Nat × Nat × Nat) :=
  match data with
  | t :: seq :: proj :: cls :: cmd :: extra :: _ => some (t, seq, proj, cls, cmd, extra)
  | _ => Option.none

/-- struct.unpack_from at an offset: the `width` bytes starting there, or a
struct.error when the buffer is too short. -/
def struct_unpack_from (data : List Nat) (offset width : Nat) : Except String (List Nat) :=
  if offset + width ≤ data.length then Except.ok ((data.drop offset).take width)
  else Except.error "unpack_from requires a buffer of sufficient size"

/-- Little-endian value of a byte list. -/
def le_value : List Nat → Nat
  | [] => 0
  | [b] => b
  | b :: rest => b + 256 * le_value rest

/-- Reinterpret an unsigned little-endian value of the given byte width as
twos-complement signed. -/
def to_signed (width : Nat) (n : Nat) : Int :=
  if n < 2 ^ (8 * width - 1) then (n : Int) else (n : Int) - 2 ^ (8 * width)

/-- Helper applying a struct.unpack_from at offset 6 and converting the bytes
read. -/
def unpack_value_at_6 (data : List Nat) (width : Nat) (k : List Nat → PyVal) :
    Except String PyVal :=
  match struct_unpack_from data 6 width with
  | Except.error e => Except.error e
  | Except.ok bs => Except.ok (k bs)

/-- The per-field decode of Mambo._update_sensors (src/Mambo.py lines
492-531), mirroring the if/elif chain on the data size string: one value at
byte offset 6, width and signedness chosen by the size; "<s" reads a single
byte; an unrecognized size (including the None of a pure notification)
decodes to None without failing. -/
def decode_sensor_value (data_size : Option String) (data : List Nat) : Except String PyVal :=
  if data_size = some "u8" ∨ data_size = some "enum" then
    unpack_value_at_6 data 1 fun bs => PyVal.int (le_value bs)
  else if data_size = some "i8" then
    unpack_value_at_6 data 1 fun bs => PyVal.int (to_signed 1 (le_value bs))
  else if data_size = some "u16" then
    unpack_value_at_6 data 2 fun bs => PyVal.int (le_value bs)
  else if data_size = some "i16" then
    unpack_value_at_6 data 2 fun bs => PyVal.int (to_signed 2 (le_value bs))
  else if data_size = some "u32" then
    unpack_value_at_6 data 4 fun bs => PyVal.int (le_value bs)
  else if data_size = some "i32" then
    unpack_value_at_6 data 4 fun bs => PyVal.int (to_signed 4 (le_value bs))
  else if data_size = some "u64" then
    unpack_value_at_6 data 8 fun bs => PyVal.int (le_value bs)
  else if data_size = some "i64" then
    unpack_value_at_6 data 8 fun bs => PyVal.int (to_signed 8 (le_value bs))
  else if data_size = some "float" then
    unpack_value_at_6 data 4 fun bs => PyVal.float bs
  else if data_size = some "double" then
    unpack_value_at_6 data 8 fun bs => PyVal.float bs
  else if data_size = some "string" then
    unpack_value_at_6 data 1 fun bs => PyVal.bytes bs
  else Except.ok PyVal.none

/-- The byte width the per-field decode reads at offset 6 for each recognized
data size string — the widths of the struct formats applied in
_update_sensors (src/Mambo.py lines 492-527); kinds outside the table
(including the None size of a pure notification) read no bytes. -/
def declared_width (data_size : Option String) : Option Nat :=
  if data_size = some "u8" ∨ data_size = some "enum" ∨ data_size = some "i8"
      ∨ data_size = some "string" then some 1
  else if data_size = some "u16" ∨ data_size = some "i16" then some 2
  else if data_size = some "u32" ∨ data_size = some "i32" ∨ data_size = some "float" then
    some 4
  else if data_size = some "u64" ∨ data_size = some "i64" ∨ data_size = some "double" then
    some 8
  else Option.none

/-- The field loop of Mambo._update_sensors (src/Mambo.py lines 489-534):
for each declared (name, data size) pair decode a value — always at offset 6 —
and store it.  An unpack struct.error or an update IndexError aborts the loop,
returning the error message together with the sensors mutated so far. -/
def update_sensors_loop (sensors : MamboSensors)
    (enums : List ((String × String) × List String)) (data : List Nat) :
    List (String × Option String) → Option String × MamboSensors
  | [] => (Option.none, sensors)
  | (name, data_size) :: rest =>
    match decode_sensor_value data_size data with
    | Except.error e => (some e, sensors)
    | Except.ok v =>
      match sensors.update name v enums with
      | Option.none => (some "IndexError: list index out of range", sensors)
      | some sensors' => update_sensors_loop sensors' enums data rest

/-- Mambo._update_sensors (src/Mambo.py lines 475-542): unpack the 6-byte
header (a frame shorter than that raises struct.error, which nothing in the
source catches — the embedding surfaces it as `Except.error`), resolve the
field layout through _parse_sensor_tuple, decode and store each declared
field, and finally — for frames on the acknowledged data channel — send the
ack-of-receipt frame built by _ack_packet.  Returns the exception outcome,
the state at exit, and the transport writes performed. -/
def update_sensors (st : Mambo) (data : List Nat) (ack : Bool) :
    Except String Unit × Mambo × List (List Nat) :=
  match unpack_header data with
  | Option.none =>
    (Except.error "unpack_from requires a buffer of at least 6 bytes", st, [])
  | some hdr =>
    let (res, cache', _) :=
      parse_sensor_tuple st.minidrone_commands st.common_commands st.sensor_tuple_cache hdr
    let st1 := { st with sensor_tuple_cache := cache' }
    match res with
    | some (names, data_sizes) =>
      let (err, sensors') :=
        update_sensors_loop st1.sensors st1.sensor_tuple_cache.enums data
          (names.zip data_sizes)
      let st2 := { st1 with sensors := sensors' }
      match err with
      | some e => (Except.error e, st2, [])
      | Option.none =>
        if ack then
          let (st3, pkt) := ack_packet st2 hdr.2.1
          (Except.ok (), st3, [pkt])
        else (Except.ok (), st2, [])
    | Option.none =>
      -- names is None: only the parse error is printed, nothing is stored
      if ack then
        let (st3, pkt) := ack_packet st1 hdr.2.1
        (Except.ok (), st3, [pkt])
      else (Except.ok (), st1, [])

/-- The retry loop of Mambo.connect (src/Mambo.py lines 314-324).  `outcomes
n = true` means the n-th _connect attempt succeeds, false that it raises
BTLEException.  `try_num` starts at 1 and the while guard is `try_num <
num_retries`, so `fuel` is `num_retries - try_num`.  Returns the result and
the number of attempts performed. -/
def connect_loop (outcomes : Nat → Bool) (try_num : Nat) : Nat → Bool × Nat
  | 0 => (false, 0)
  | fuel + 1 =>
    if outcomes try_num then (true, 1)
    else
      let (res, n) := connect_loop outcomes (try_num + 1) fuel
      (res, n + 1)

/-- Mambo.connect (src/Mambo.py lines 305-324). -/
def connect (outcomes : Nat → Bool) (num_retries : Nat) : Bool × Nat :=
  connect_loop outcomes 1 (num_retries - 1)

/-- The retry loop of Mambo._reconnect (src/Mambo.py lines 335-345): same
bound as connect, with a success flag instead of an early return. -/
def reconnect_loop (outcomes : Nat → Bool) (try_num : Nat) : Nat → Bool × Nat
  | 0 => (false, 0)
  | fuel + 1 =>
    if outcomes try_num then (true, 1)
    else
      let (res, n) := reconnect_loop outcomes (try_num + 1) fuel
      (res, n + 1)

/-- Mambo._reconnect (src/Mambo.py lines 327-351): the handshake performed on
success only touches BLE descriptors, so the boolean outcome and attempt count
are the observable result here. -/
def reconnect (outcomes : Nat → Bool) (num_retries : Nat) : Bool × Nat :=
  reconnect_loop outcomes 1 (num_retries - 1)

/-- Mambo._ensure_fly_command_in_range (src/Mambo.py lines 1082-1094). -/
def ensure_fly_command_in_range (value : Int) : Int :=
  if value < -100 then -100
  else if value > 100 then 100
  else value

/-- State-passing wrapper of `get_command_tuple` over the Mambo object (the
source methods read self.minidrone_commands, self.common_commands and mutate
self.command_tuple_cache). -/
def Mambo.get_command_tuple (st : Mambo) (myclass cmd : String) :
    Option (Nat × Nat × Nat) × Mambo :=
  let (r, cache', _) :=
    Pymambo.get_command_tuple st.minidrone_commands st.common_commands
      st.command_tuple_cache myclass cmd
  (r, { st with command_tuple_cache := cache' })

/-- State-passing wrapper of `get_command_tuple_with_enum` over the Mambo
object. -/
def Mambo.get_command_tuple_with_enum (st : Mambo) (myclass cmd enum_name : String) :
    Option ((Nat × Nat × Nat) × Nat) × Mambo :=
  let (r, cache', _) :=
    Pymambo.get_command_tuple_with_enum st.minidrone_commands st.common_commands
      st.command_tuple_enum_cache myclass cmd enum_name
  (r, { st with command_tuple_enum_cache := cache' })

/-- One iteration of the fly_direct while loop (src/Mambo.py lines
1119-1125): increment the SEND_NO_ACK counter, then pack
"<BBBBBBBbbbbI" — type, new counter, command tuple, 0, flag 1, the four
already-clamped signed bytes, rotation 0. -/
def fly_direct_step (counter : Nat) (command_tuple : Nat × Nat × Nat)
    (my_roll my_pitch my_yaw my_vertical : Int) : Nat × List Nat :=
  let c := increment_counter counter
  (c, [data_type "DATA_NO_ACK", c,
       command_tuple.1, command_tuple.2.1, command_tuple.2.2, 0, 1,
       i8byte my_roll, i8byte my_pitch, i8byte my_yaw, i8byte my_vertical] ++ u32le 0)

/-- The duration-bounded while loop of fly_direct, with the wall-clock bound
modelled as an explicit iteration count. -/
def fly_direct_loop (command_tuple : Nat × Nat × Nat)
    (my_roll my_pitch my_yaw my_vertical : Int) (counter : Nat) :
    Nat → Nat × List (List Nat)
  | 0 => (counter, [])
  | n + 1 =>
    let (c', pkt) := fly_direct_step counter command_tuple my_roll my_pitch my_yaw my_vertical
    let (cf, ws) := fly_direct_loop command_tuple my_roll my_pitch my_yaw my_vertical c' n
    (cf, pkt :: ws)

/-- Mambo.fly_direct (src/Mambo.py lines 1096-1127): clamp the four caller
inputs through _ensure_fly_command_in_range, resolve Piloting/PCMD, then send
one no-ack frame per loop iteration.  A failed dictionary resolution would
make the source subscript None (a TypeError). -/
def fly_direct (st : Mambo) (roll pitch yaw vertical_movement : Int)
    (iterations : Nat) : Except String Unit × Mambo × List (List Nat) :=
  let my_roll := ensure_fly_command_in_range roll
  let my_pitch := ensure_fly_command_in_range pitch
  let my_yaw := ensure_fly_command_in_range yaw
  let my_vertical := ensure_fly_command_in_range vertical_movement
  match st.get_command_tuple "Piloting" "PCMD" with
  | (some command_tuple, st1) =>
    let (cf, ws) :=
      fly_direct_loop command_tuple my_roll my_pitch my_yaw my_vertical
        st1.characteristic_send_counter.SEND_NO_ACK iterations
    (Except.ok (),
     { st1 with
       characteristic_send_counter :=
         { st1.characteristic_send_counter with SEND_NO_ACK := cf } },
     ws)
  | (Option.none, st1) =>
    (Except.error "TypeError: NoneType object is not subscriptable", st1, [])

/-- Number of %s conversions in a format string (as characters). -/
def count_conversions : List Char → Nat
  | '%' :: 's' :: rest => 1 + count_conversions rest
  | _ :: rest => count_conversions rest
  | [] => 0

/-- Substitution of arguments for the %s conversions, assuming the counts
match. -/
def subst_conversions : List Char → List String → String
  | '%' :: 's' :: rest, a :: args => a ++ subst_conversions rest args
  | c :: rest, args => String.singleton c ++ subst_conversions rest args
  | [], _ => ""

/-- The %-formatting operator of Python 2 applied to a list of arguments (a
single non-tuple argument, as in the invalid-direction print of Mambo.flip,
is the one-element list): every %s conversion must consume exactly one
argument; a mismatch raises TypeError. -/
def py_format (fmt : String) (args : List String) : Except String String :=
  let k := count_conversions fmt.toList
  if args.length < k then
    Except.error "TypeError: not enough arguments for format string"
  else if k < args.length then
    Except.error "TypeError: not all arguments converted during string formatting"
  else
    Except.ok (subst_conversions fmt.toList args)

/-- Mambo.flip (src/Mambo.py lines 984-1001).  An invalid direction runs the
error print — whose format string holds two %s conversions applied to the
single `direction` argument, a TypeError — and would then return None;
a valid direction resolves Animations/Flip for the direction name and sends
it on the acknowledged channel.  Returns the exception outcome (ok carrying
None or the boolean send result), the state at exit, and the writes. -/
def flip (st : Mambo) (direction : String) (sched : Nat → Bool) :
    Except String (Option Bool) × Mambo × List (List Nat) :=
  if direction ∈ ["front", "back", "right", "left"] then
    match st.get_command_tuple_with_enum "Animations" "Flip" direction with
    | (some (command_tuple, enum_tuple), st1) =>
      let (res, st2, ws) :=
        send_enum_command_packet_ack st1 command_tuple enum_tuple Option.none sched
      (Except.ok (some res), st2, ws)
    | (Option.none, st1) =>
      -- unpacking the implicit None return raises in the source
      (Except.error "TypeError: NoneType object is not iterable", st1, [])
  else
    match py_format "Error: %s is not a valid direction.  Must be one of %s" [direction] with
    | Except.error e => (Except.error e, st, [])
    | Except.ok _ => (Except.ok Option.none, st, [])

/-- A concrete minidrone dictionary used to instantiate the theorems: the XML
files are external inputs of the program, so the embedded lookups take any
`ProjectDef`; this one carries the entries the concrete scenarios exercise,
with the ids and names the real minidrone.xml declares (plus one small
two-argument telemetry command). -/
def miniDictCx : ProjectDef where
  id := 2
  classes :=
    [ { id := 0, name := "Piloting",
        cmds :=
          [ { id := 1, name := "TakeOff", args := [] },
            { id := 2, name := "PCMD",
              args :=
                [ { name := "flag", type := "u8", enums := [] },
                  { name := "roll", type := "i8", enums := [] },
                  { name := "pitch", type := "i8", enums := [] },
                  { name := "yaw", type := "i8", enums := [] },
                  { name := "gaz", type := "i8", enums := [] } ] } ] },
      { id := 3, name := "PilotingState",
        cmds :=
          [ { id := 1, name := "FlyingStateChanged",
              args :=
                [ { name := "state", type := "enum",
                    enums := ["landed", "takingoff", "hovering", "flying",
                              "landing", "emergency", "rolling"] } ] } ] },
      { id := 4, name := "Animations",
        cmds :=
          [ { id := 0, name := "Flip",
              args :=
                [ { name := "direction", type := "enum",
                    enums := ["front", "back", "right", "left"] } ] } ] },
      { id := 10, name := "TwoField",
        cmds :=
          [ { id := 5, name := "Two",
              args :=
                [ { name := "A", type := "u8", enums := [] },
                  { name := "B", type := "u8", enums := [] } ] } ] } ]

/-- A concrete common dictionary for the same purpose. -/
def commonDictCx : ProjectDef where
  id := 0
  classes :=
    [ { id := 4, name := "Common",
        cmds := [ { id := 0, name := "AllStates", args := [] } ] },
      { id := 5, name := "CommonState",
        cmds :=
          [ { id := 1, name := "BatteryStateChanged",
              args := [ { name := "battery_percent", type := "u8", enums := [] } ] } ] } ]

/-- The Mambo state right after __init__ on the concrete dictionaries. -/
def mamboCx : Mambo := Mambo.init miniDictCx commonDictCx

/-- The enum cache content _parse_sensor_tuple builds for the minidrone
FlyingStateChanged command. -/
def flyingEnumCx : List ((String × String) × List String) :=
  [(("FlyingStateChanged_state", "enum"),
    ["landed", "takingoff", "hovering", "flying", "landing", "emergency", "rolling"])]

/-- Claim C1: if no ack BLE event ever sets the SEND_WITH_ACK received flag,
_send_command_packet_ack writes the packet to the transport exactly
max_packet_retries = 3 times and returns False. -/
theorem send_with_ack_never_acked_three_writes (packet : List Nat) (sched : Nat → Bool)
    (h : ∀ n, sched n = false) :
    send_command_packet_ack packet sched
      = (false, List.replicate max_packet_retries packet) := by
  simp [send_command_packet_ack, max_packet_retries, send_command_packet_ack_loop, h,
    List.replicate]

/-- Witness for C1: a concrete takeoff-shaped packet and the never-acked
schedule give exactly three writes and False. -/
theorem send_with_ack_never_acked_three_writes_witness :
    send_command_packet_ack [4, 1, 2, 0, 1, 0] (fun _ => false)
      = (false, [[4, 1, 2, 0, 1, 0], [4, 1, 2, 0, 1, 0], [4, 1, 2, 0, 1, 0]]) :=
  send_with_ack_never_acked_three_writes [4, 1, 2, 0, 1, 0] (fun _ => false) (fun _ => rfl)

/-- Claim C2: when the ack notification sets the flag after the first write
attempt went unacknowledged and before the third attempt,
_send_command_packet_ack returns True and performs no transport write after
the flag is set (two writes in total). -/
theorem send_with_ack_stops_after_ack (packet : List Nat) (sched : Nat → Bool)
    (h1 : sched 1 = false) (h2 : sched 2 = true) :
    send_command_packet_ack packet sched = (true, [packet, packet]) := by
  simp [send_command_packet_ack, max_packet_retries, send_command_packet_ack_loop, h1, h2]

/-- Witness for C2: the schedule delivering the ack during the second sleep
gives success after exactly two writes. -/
theorem send_with_ack_stops_after_ack_witness :
    send_command_packet_ack [4, 1, 2, 0, 1, 0] (fun n => n == 2)
      = (true, [[4, 1, 2, 0, 1, 0], [4, 1, 2, 0, 1, 0]]) :=
  send_with_ack_stops_after_ack [4, 1, 2, 0, 1, 0] (fun n => n == 2) rfl rfl

/-- `reconnect_loop` is the same bounded loop as `connect_loop`. -/
theorem reconnect_loop_eq_connect_loop (outcomes : Nat → Bool) (try_num fuel : Nat) :
    reconnect_loop outcomes try_num fuel = connect_loop outcomes try_num fuel := by
  induction fuel generalizing try_num with
  | zero => rfl
  | succ n ih => simp [reconnect_loop, connect_loop, ih]

/-- When every attempt in the window fails, the bounded loop performs all of
them and reports failure. -/
theorem connect_loop_all_fail (outcomes : Nat → Bool) (try_num fuel : Nat)
    (h : ∀ j, try_num ≤ j → j < try_num + fuel → outcomes j = false) :
    connect_loop outcomes try_num fuel = (false, fuel) := by
  induction fuel generalizing try_num with
  | zero => rfl
  | succ n ih =>
    have h0 : outcomes try_num = false := h try_num le_rfl (by omega)
    have hrec := ih (try_num + 1) (fun j hj1 hj2 => h j (by omega) (by omega))
    simp [connect_loop, h0, hrec]

/-- When the first success is the (d+1)-st attempt inside the window, the
bounded loop stops there with success. -/
theorem connect_loop_first_success (outcomes : Nat → Bool) (try_num fuel d : Nat)
    (hd : d < fuel) (hs : outcomes (try_num + d) = true)
    (hf : ∀ j, try_num ≤ j → j < try_num + d → outcomes j = false) :
    connect_loop outcomes try_num fuel = (true, d + 1) := by
  induction fuel generalizing try_num d with
  | zero => omega
  | succ n ih =>
    cases d with
    | zero =>
      have hs0 : outcomes try_num = true := by simpa using hs
      simp [connect_loop, hs0]
    | succ d' =>
      have h0 : outcomes try_num = false := hf try_num le_rfl (by omega)
      have hs' : outcomes (try_num + 1 + d') = true := by
        have e : try_num + 1 + d' = try_num + (d' + 1) := by omega
        rw [e]; exact hs
      have hrec := ih (try_num + 1) d' (by omega) hs'
        (fun j hj1 hj2 => hf j (by omega) (by omega))
      simp [connect_loop, h0, hrec]

/-- Counterexample to claim C9: with num_retries = 3 and a schedule whose
third attempt would succeed, connect performs only 2 attempts (the loop runs
while try_num < num_retries starting from 1) and returns False — not the
claimed budget of 3 attempts. -/
theorem connect_counterexample :
    connect (fun n => n == 3) 3 = (false, 2) := by decide

/-- Claim C9 (amended): connect(num_retries) makes up to num_retries − 1
connection attempts, returns True as soon as one succeeds and False once they
are exhausted; _reconnect(num_retries) obeys the same num_retries − 1 bound. -/
theorem connect_retry_budget (outcomes : Nat → Bool) (n k : Nat) :
    ((∀ j, 1 ≤ j → j < n → outcomes j = false) →
      connect outcomes n = (false, n - 1) ∧ reconnect outcomes n = (false, n - 1)) ∧
    (1 ≤ k → k < n → outcomes k = true → (∀ j, 1 ≤ j → j < k → outcomes j = false) →
      connect outcomes n = (true, k) ∧ reconnect outcomes n = (true, k)) := by
  constructor
  · intro hfail
    have h := connect_loop_all_fail outcomes 1 (n - 1)
      (fun j hj1 hj2 => hfail j hj1 (by omega))
    constructor
    · exact h
    · rw [reconnect, reconnect_loop_eq_connect_loop]; exact h
  · intro hk1 hkn hk hfail
    have hs : outcomes (1 + (k - 1)) = true := by
      have e : 1 + (k - 1) = k := by omega
      rw [e]; exact hk
    have h := connect_loop_first_success outcomes 1 (n - 1) (k - 1) (by omega) hs
      (fun j hj1 hj2 => hfail j hj1 (by omega))
    have e : k - 1 + 1 = k := by omega
    rw [e] at h
    constructor
    · exact h
    · rw [reconnect, reconnect_loop_eq_connect_loop]; exact h

/-- Witness for the amended C9: with a budget of 4, a schedule failing on the
first attempt and succeeding on the second stops after 2 attempts with True,
for both connect and _reconnect. -/
theorem connect_retry_budget_witness :
    connect (fun j => j == 2) 4 = (true, 2) ∧ reconnect (fun j => j == 2) 4 = (true, 2) :=
  (connect_retry_budget (fun j => j == 2) 4 2).2 (by decide) (by decide) (by decide)
    (fun j hj1 hj2 => by
      have : j = 1 := by omega
      subst this
      rfl)

/-- Claim C10 (code fails): flip with an invalid direction sends no packet and
leaves the state — every counter and every ack flag — unchanged, but it does
not return None: the error print applies a format string holding two %s
conversions to the single direction argument, raising TypeError. -/
theorem flip_invalid_direction_type_error :
    flip mamboCx "up" (fun _ => false)
      = (Except.error "TypeError: not enough arguments for format string", mamboCx, []) := by
  rfl

/-- Claim C3 (code fails at the boundary): an in-range decoded index stores
the member name and an index strictly beyond the member-list length stores the
UNKNOWN_ENUM_VALUE sentinel, but — because the source guard is
`value > len(...)` instead of `>=` — an index equal to the length (7 here)
slips past the guard into the list indexing and raises IndexError instead of
storing the sentinel. -/
theorem enum_update_boundary_index_error :
    ((MamboSensors.init.update "FlyingStateChanged_state" (PyVal.int 1)
        flyingEnumCx).map (fun s => s.flying_state) = some (PyVal.str "takingoff")) ∧
    ((MamboSensors.init.update "FlyingStateChanged_state" (PyVal.int 8)
        flyingEnumCx).map (fun s => s.flying_state)
          = some (PyVal.str "UNKNOWN_ENUM_VALUE")) ∧
    (MamboSensors.init.update "FlyingStateChanged_state" (PyVal.int 7)
        flyingEnumCx = Option.none) := by
  decide

/-- Every write of the fly_direct loop carries the four clamped bytes at
offsets 7 to 10. -/
theorem fly_direct_loop_writes (ct : Nat × Nat × Nat) (r p y v : Int) (c n : Nat) :
    ∀ w ∈ (fly_direct_loop ct r p y v c n).2,
      w.get? 7 = some (i8byte r) ∧ w.get? 8 = some (i8byte p) ∧
      w.get? 9 = some (i8byte y) ∧ w.get? 10 = some (i8byte v) := by
  induction n generalizing c with
  | zero => simp [fly_direct_loop]
  | succ n ih =>
    intro w hw
    simp only [fly_direct_loop, fly_direct_step, List.mem_cons] at hw
    rcases hw with rfl | hw
    · exact ⟨rfl, rfl, rfl, rfl⟩
    · exact ih _ w hw

/-- Claim C4: fly_direct clamps each of roll, pitch, yaw and vertical_movement
into [-100, 100] through _ensure_fly_command_in_range before encoding — 150
clamps to 100, -150 to -100, 37 stays 37, every clamped value is in range,
and every packet the command writes carries exactly the clamped (i8-encoded)
values, so out-of-range caller input is silently clamped, never rejected. -/
theorem fly_direct_clamps :
    (ensure_fly_command_in_range 150 = 100) ∧
    (ensure_fly_command_in_range (-150) = -100) ∧
    (ensure_fly_command_in_range 37 = 37) ∧
    (∀ value : Int,
      -100 ≤ ensure_fly_command_in_range value ∧ ensure_fly_command_in_range value ≤ 100) ∧
    (∀ (st : Mambo) (roll pitch yaw vertical_movement : Int) (iterations : Nat),
      ∀ w ∈ (fly_direct st roll pitch yaw vertical_movement iterations).2.2,
        w.get? 7 = some (i8byte (ensure_fly_command_in_range roll)) ∧
        w.get? 8 = some (i8byte (ensure_fly_command_in_range pitch)) ∧
        w.get? 9 = some (i8byte (ensure_fly_command_in_range yaw)) ∧
        w.get? 10 = some (i8byte (ensure_fly_command_in_range vertical_movement))) := by
  refine ⟨by decide, by decide, by decide, ?_, ?_⟩
  · intro value
    unfold ensure_fly_command_in_range
    split_ifs <;> constructor <;> omega
  · intro st roll pitch yaw vertical_movement iterations w hw
    unfold fly_direct at hw
    rcases h : st.get_command_tuple "Piloting" "PCMD" with ⟨r, st1⟩
    rw [h] at hw
    rcases r with _ | ct
    · simp at hw
    · exact fly_direct_loop_writes ct _ _ _ _ _ _ w hw

/-- Witness for C4: on the concrete state, one fly_direct iteration with
inputs 150, -150, 37, 200 writes a packet whose four payload bytes are the
clamped encodings 100, 156 (the i8 byte of -100), 37 and 100. -/
theorem fly_direct_clamps_witness :
    (fly_direct mamboCx 150 (-150) 37 200 1).2.2
        = [[2, 1, 2, 0, 2, 0, 1, 100, 156, 37, 100, 0, 0, 0, 0]] ∧
    [(2 : Nat), 1, 2, 0, 2, 0, 1, 100, 156, 37, 100, 0, 0, 0, 0].get? 7 = some 100 ∧
    [(2 : Nat), 1, 2, 0, 2, 0, 1, 100, 156, 37, 100, 0, 0, 0, 0].get? 8 = some 156 := by
  refine ⟨by decide, ?_, ?_⟩
  · have h := fly_direct_clamps.2.2.2.2 mamboCx 150 (-150) 37 200 1
      [2, 1, 2, 0, 2, 0, 1, 100, 156, 37, 100, 0, 0, 0, 0] (by decide)
    exact h.1
  · have h := fly_direct_clamps.2.2.2.2 mamboCx 150 (-150) 37 200 1
      [2, 1, 2, 0, 2, 0, 1, 100, 156, 37, 100, 0, 0, 0, 0] (by decide)
    exact h.2.1

/-- Iterating the per-send counter update adds the iteration count modulo
256. -/
theorem increment_counter_iterate (n c : Nat) (h : c < 256) :
    increment_counter^[n] c = (c + n) % 256 := by
  induction n generalizing c with
  | zero => simpa using (Nat.mod_eq_of_lt h).symm
  | succ n ih =>
    rw [Function.iterate_succ_apply]
    rw [ih (increment_counter c) (Nat.mod_lt _ (by norm_num))]
    simp only [increment_counter]
    omega

/-- Every write of the acknowledged-channel retry loop is the packet it was
given. -/
theorem send_command_packet_ack_loop_writes (packet : List Nat) (sched : Nat → Bool)
    (received : Bool) (try_num fuel : Nat) :
    ∀ w ∈ (send_command_packet_ack_loop packet sched received try_num fuel).2,
      w = packet := by
  induction fuel generalizing received try_num with
  | zero => simp [send_command_packet_ack_loop]
  | succ n ih =>
    intro w hw
    simp only [send_command_packet_ack_loop] at hw
    by_cases h : received
    · simp [h] at hw
    · simp only [h, if_false, Bool.false_eq_true, List.mem_cons] at hw
      rcases hw with rfl | hw
      · rfl
      · exact ih _ _ w hw

/-- Claim C5: each send site increments its channel counter modulo 256 and
only then builds the frame — the sequence byte (index 1) of every frame it
writes is exactly the freshly incremented counter value, for the
SEND_WITH_ACK sends, the enum send, the ACK_COMMAND ack-of-receipt frame and
each SEND_NO_ACK fly_direct iteration — and 256 consecutive increments return
any in-range counter to its original value. -/
theorem channel_counter_increment_wrap :
    (∀ c : Nat, c < 256 → increment_counter^[256] c = c) ∧
    (∀ (st : Mambo) (command_tuple : Nat × Nat × Nat) (sched : Nat → Bool),
      (send_noparam_command_packet_ack st command_tuple sched).2.1.characteristic_send_counter.SEND_WITH_ACK
          = increment_counter st.characteristic_send_counter.SEND_WITH_ACK ∧
      ∀ w ∈ (send_noparam_command_packet_ack st command_tuple sched).2.2,
        w.get? 1 = some (increment_counter st.characteristic_send_counter.SEND_WITH_ACK)) ∧
    (∀ (st : Mambo) (command_tuple : Nat × Nat × Nat) (enum_value : Nat)
        (usb_id : Option Nat) (sched : Nat → Bool),
      (send_enum_command_packet_ack st command_tuple enum_value usb_id sched).2.1.characteristic_send_counter.SEND_WITH_ACK
          = increment_counter st.characteristic_send_counter.SEND_WITH_ACK ∧
      ∀ w ∈ (send_enum_command_packet_ack st command_tuple enum_value usb_id sched).2.2,
        w.get? 1 = some (increment_counter st.characteristic_send_counter.SEND_WITH_ACK)) ∧
    (∀ (st : Mambo) (packet_id : Nat),
      (ack_packet st packet_id).1.characteristic_send_counter.ACK_COMMAND
          = increment_counter st.characteristic_send_counter.ACK_COMMAND ∧
      (ack_packet st packet_id).2.get? 1
          = some (increment_counter st.characteristic_send_counter.ACK_COMMAND)) ∧
    (∀ (counter : Nat) (command_tuple : Nat × Nat × Nat) (r p y v : Int),
      (fly_direct_step counter command_tuple r p y v).1 = increment_counter counter ∧
      (fly_direct_step counter command_tuple r p y v).2.get? 1
          = some (increment_counter counter)) := by
  refine ⟨?_, ?_, ?_, ?_, ?_⟩
  · intro c h
    rw [increment_counter_iterate 256 c h]
    omega
  · intro st command_tuple sched
    refine ⟨rfl, ?_⟩
    intro w hw
    have := send_command_packet_ack_loop_writes _ sched false 0 max_packet_retries w hw
    rw [this]
    rfl
  · intro st command_tuple enum_value usb_id sched
    refine ⟨?_, ?_⟩
    · cases usb_id <;> rfl
    · intro w hw
      cases usb_id with
      | none =>
        have := send_command_packet_ack_loop_writes _ sched false 0 max_packet_retries w hw
        rw [this]; rfl
      | some u =>
        have := send_command_packet_ack_loop_writes _ sched false 0 max_packet_retries w hw
        rw [this]; rfl
  · intro st packet_id
    exact ⟨rfl, rfl⟩
  · intro counter command_tuple r p y v
    exact ⟨rfl, rfl⟩

/-- Witness for C5: each hypothesis-bearing part instantiated concretely —
256 increments return counter 7 to 7, and a concrete noparam send carries the
incremented counter 1 in byte 1 of its (never-acked) three writes. -/
theorem channel_counter_increment_wrap_witness :
    increment_counter^[256] 7 = 7 ∧
    ((send_noparam_command_packet_ack mamboCx (2, 0, 1) (fun _ => false)).2.2.all
      (fun w => w.get? 1 == some 1)) = true := by
  refine ⟨channel_counter_increment_wrap.1 7 (by decide), ?_⟩
  rw [List.all_eq_true]
  intro w hw
  have h := (channel_counter_increment_wrap.2.1 mamboCx (2, 0, 1) (fun _ => false)).2 w hw
  rw [h]
  rfl

/-- Looking up a key right after inserting it finds the inserted value. -/
theorem dictGet_dictInsert {κ ν : Type} [DecidableEq κ] (d : List (κ × ν)) (k : κ) (v : ν) :
    dictGet (dictInsert d k v) k = some v := by
  induction d with
  | nil => simp [dictGet, dictInsert]
  | cons kv rest ih =>
    obtain ⟨k0, v0⟩ := kv
    by_cases h : k0 = k
    · simp [dictInsert, h, dictGet]
    · simp [dictInsert, h, dictGet, ih]

/-- After a _get_command_tuple call that found a result, the cache it returns
holds that result under the name key. -/
theorem get_command_tuple_found_cached (mini common : ProjectDef)
    (ccache : List ((String × String) × (Nat × Nat × Nat))) (myclass cmd : String)
    (t : Nat × Nat × Nat) (ccache' : List ((String × String) × (Nat × Nat × Nat))) (q : Bool)
    (h : get_command_tuple mini common ccache myclass cmd = (some t, ccache', q)) :
    dictGet ccache' (myclass, cmd) = some t := by
  unfold get_command_tuple at h
  split at h
  · simp only [Prod.mk.injEq, Option.some.injEq] at h
    obtain ⟨h1, h2, h3⟩ := h
    subst h1; subst h2
    assumption
  · split at h
    · simp only [Prod.mk.injEq, Option.some.injEq] at h
      obtain ⟨h1, h2, h3⟩ := h
      subst h1; subst h2
      exact dictGet_dictInsert ccache (myclass, cmd) _
    · split at h
      · simp only [Prod.mk.injEq, Option.some.injEq] at h
        obtain ⟨h1, h2, h3⟩ := h
        subst h1; subst h2
        exact dictGet_dictInsert ccache (myclass, cmd) _
      · simp at h

/-- After a _get_command_tuple call that found nothing, the cache is returned
untouched (the source caches only found results on this path). -/
theorem get_command_tuple_notfound_cache_eq (mini common : ProjectDef)
    (ccache : List ((String × String) × (Nat × Nat × Nat))) (myclass cmd : String)
    (ccache' : List ((String × String) × (Nat × Nat × Nat))) (q : Bool)
    (h : get_command_tuple mini common ccache myclass cmd = (Option.none, ccache', q)) :
    ccache' = ccache := by
  unfold get_command_tuple at h
  split at h
  · simp at h
  · split at h
    · simp at h
    · split at h
      · simp at h
      · simp only [Prod.mk.injEq] at h
        exact h.2.1.symm

/-- After any _parse_sensor_tuple call, the cache it returns holds the
returned result — found or (None, None) — under the header 4-tuple key. -/
theorem parse_sensor_tuple_caches (mini common : ProjectDef) (scache : SensorTupleCache)
    (a b p c d e : Nat) (r : Option (List String × List (Option String)))
    (scache' : SensorTupleCache) (q : Bool)
    (h : parse_sensor_tuple mini common scache (a, b, p, c, d, e) = (r, scache', q)) :
    dictGet scache'.tuples (p, c, d, e) = some r := by
  simp only [parse_sensor_tuple] at h
  split at h
  · simp only [Prod.mk.injEq] at h
    obtain ⟨h1, h2, h3⟩ := h
    subst h1; subst h2
    assumption
  · split at h
    · simp only [Prod.mk.injEq] at h
      obtain ⟨h1, h2, h3⟩ := h
      subst h1; subst h2
      exact dictGet_dictInsert scache.tuples (p, c, d, e) _
    · split at h
      · simp only [Prod.mk.injEq] at h
        obtain ⟨h1, h2, h3⟩ := h
        subst h1; subst h2
        exact dictGet_dictInsert scache.tuples (p, c, d, e) _
      · simp only [Prod.mk.injEq] at h
        obtain ⟨h1, h2, h3⟩ := h
        subst h1; subst h2
        exact dictGet_dictInsert scache.tuples (p, c, d, e) _

/-- Counterexample to claim C6: a (class, command) name key that is in
neither dictionary is resolved with a backing-dictionary scan (third
component true), the cache comes back unchanged, and resolving the very same
key a second time scans the backing dictionaries again — the "not found"
result was not cached, unlike what the claim states for every key. -/
theorem notfound_command_key_not_cached :
    get_command_tuple miniDictCx commonDictCx [] "Piloting" "Missing"
        = (Option.none, [], true) ∧
    get_command_tuple miniDictCx commonDictCx
        (get_command_tuple miniDictCx commonDictCx [] "Piloting" "Missing").2.1
        "Piloting" "Missing" = (Option.none, [], true) :=
  ⟨by decide, by decide⟩

/-- Claim C6 (amended): resolution results are cached and a second resolution
of the same key returns the identical result without re-querying the backing
dictionaries — for name keys this holds for found results only (a not-found
name lookup leaves the cache untouched and is re-queried every time), while
for inbound header 4-tuples both found and not-found results are cached
identically. -/
theorem dictionary_caching (mini common : ProjectDef)
    (ccache : List ((String × String) × (Nat × Nat × Nat)))
    (scache : SensorTupleCache) (myclass cmd : String)
    (t : Nat × Nat × Nat) (ccache' : List ((String × String) × (Nat × Nat × Nat)))
    (q : Bool) (a b p c d e : Nat)
    (r : Option (List String × List (Option String))) (scache' : SensorTupleCache)
    (q' : Bool) :
    (get_command_tuple mini common ccache myclass cmd = (some t, ccache', q) →
      get_command_tuple mini common ccache' myclass cmd = (some t, ccache', false)) ∧
    (get_command_tuple mini common ccache myclass cmd = (Option.none, ccache', q) →
      ccache' = ccache) ∧
    (parse_sensor_tuple mini common scache (a, b, p, c, d, e) = (r, scache', q') →
      parse_sensor_tuple mini common scache' (a, b, p, c, d, e) = (r, scache', false)) := by
  refine ⟨?_, ?_, ?_⟩
  · intro h
    have hc := get_command_tuple_found_cached mini common ccache myclass cmd t ccache' q h
    simp [get_command_tuple, hc]
  · exact get_command_tuple_notfound_cache_eq mini common ccache myclass cmd ccache' q
  · intro h
    have hc := parse_sensor_tuple_caches mini common scache a b p c d e r scache' q' h
    simp [parse_sensor_tuple, hc]

/-- Witness for the amended C6: resolving Piloting/TakeOff a second time hits
the cache (no backing scan), a not-found resolution left the cache empty, and
re-parsing the battery header tuple hits the sensor cache. -/
theorem dictionary_caching_witness :
    (get_command_tuple miniDictCx commonDictCx [(("Piloting", "TakeOff"), (2, 0, 1))]
        "Piloting" "TakeOff"
        = (some (2, 0, 1), [(("Piloting", "TakeOff"), (2, 0, 1))], false)) ∧
    (([] : List ((String × String) × (Nat × Nat × Nat))) = []) ∧
    (parse_sensor_tuple miniDictCx commonDictCx
        (parse_sensor_tuple miniDictCx commonDictCx SensorTupleCache.init
          (4, 9, 0, 5, 1, 0)).2.1 (4, 9, 0, 5, 1, 0)
        = ((parse_sensor_tuple miniDictCx commonDictCx SensorTupleCache.init
          (4, 9, 0, 5, 1, 0)).1,
           (parse_sensor_tuple miniDictCx commonDictCx SensorTupleCache.init
          (4, 9, 0, 5, 1, 0)).2.1, false)) := by
  refine ⟨?_, ?_, ?_⟩
  · exact (dictionary_caching miniDictCx commonDictCx [] SensorTupleCache.init
      "Piloting" "TakeOff" (2, 0, 1) [(("Piloting", "TakeOff"), (2, 0, 1))] true
      4 9 0 5 1 0 Option.none SensorTupleCache.init true).1 (by decide)
  · exact (dictionary_caching miniDictCx commonDictCx [] SensorTupleCache.init
      "Piloting" "Missing" (0, 0, 0) [] true
      4 9 0 5 1 0 Option.none SensorTupleCache.init true).2.1 (by decide)
  · exact (dictionary_caching miniDictCx commonDictCx [] SensorTupleCache.init
      "Piloting" "TakeOff" (2, 0, 1) [] true 4 9 0 5 1 0
      (parse_sensor_tuple miniDictCx commonDictCx SensorTupleCache.init
        (4, 9, 0, 5, 1, 0)).1
      (parse_sensor_tuple miniDictCx commonDictCx SensorTupleCache.init
        (4, 9, 0, 5, 1, 0)).2.1
      (parse_sensor_tuple miniDictCx commonDictCx SensorTupleCache.init
        (4, 9, 0, 5, 1, 0)).2.2).2.2 rfl

/-- A frame shorter than the fixed 6-byte header makes unpack fail. -/
theorem unpack_header_short (data : List Nat) (h : data.length < 6) :
    unpack_header data = Option.none := by
  rcases data with _ | ⟨a, _ | ⟨b, _ | ⟨c, _ | ⟨d, _ | ⟨e, _ | ⟨f, rest⟩⟩⟩⟩⟩⟩
  · rfl
  · rfl
  · rfl
  · rfl
  · rfl
  · rfl
  · exfalso
    simp [List.length] at h
    omega

/-- Counterexample to claim C7: a 5-byte inbound frame makes the dispatch
path (_update_sensors) fail with the uncaught struct unpack error — the
error result propagates out of the component instead of being logged and
dropped there. -/
theorem short_frame_counterexample :
    update_sensors mamboCx [1, 2, 3, 4, 5] true
      = (Except.error "unpack_from requires a buffer of at least 6 bytes", mamboCx, []) := by
  rfl

/-- Claim C7 (amended): decoding an inbound frame with fewer than 6 bytes
fails on the header unpack, and — since nothing in _update_sensors or the
delegate catches it — the error propagates out of the dispatch component as
an exception, with no state change, no write, and no local log-and-drop. -/
theorem short_frame_error_propagates (st : Mambo) (data : List Nat) (ack : Bool)
    (h : data.length < 6) :
    update_sensors st data ack
      = (Except.error "unpack_from requires a buffer of at least 6 bytes", st, []) := by
  unfold update_sensors
  rw [unpack_header_short data h]

/-- Witness for the amended C7: a concrete 3-byte frame. -/
theorem short_frame_error_propagates_witness :
    update_sensors mamboCx [4, 9, 0] false
      = (Except.error "unpack_from requires a buffer of at least 6 bytes", mamboCx, []) :=
  short_frame_error_propagates mamboCx [4, 9, 0] false (by decide)

/-- Counterexample to claim C8: for the two-argument telemetry command
(2, 10, 5), decoding the frame with payload bytes 42, 99 stores a value for
the second declared field as well — the remaining declared fields are
decoded and stored, not skipped — and the value stored for B is 42, the byte of the
first field, not its own byte 99. -/
theorem second_field_decoded_counterexample :
    dictGet ((update_sensors mamboCx [4, 9, 2, 10, 5, 0, 42, 99] false).2.1.sensors.unknown_sensors)
        "Two_B" = some (PyVal.int 42) ∧
    dictGet ((update_sensors mamboCx [4, 9, 2, 10, 5, 0, 42, 99] false).2.1.sensors.unknown_sensors)
        "Two_A" = some (PyVal.int 42) := by
  decide

/-- A width-w unpack at offset 6 reads only the w bytes there (plus the frame
length for the bounds check): frames agreeing on both give the same result. -/
theorem unpack_value_at_6_congr (d1 d2 : List Nat) (w : Nat) (k : List Nat → PyVal)
    (hbytes : (d1.drop 6).take w = (d2.drop 6).take w) (hlen : d1.length = d2.length) :
    unpack_value_at_6 d1 w k = unpack_value_at_6 d2 w k := by
  unfold unpack_value_at_6 struct_unpack_from
  rw [hlen, hbytes]

/-- Claim C8 (amended): decoding a frame for a command that declares several
arguments decodes and stores a value for every declared field, not only the
first — whatever its position in the declaration list, a field is decoded by
the position-free per-field decode on the whole frame and then stored, the
loop moving on to the remaining fields (and aborting partway only when an
unpack fails or a store raises); that per-field decode unpacks starting at
byte offset 6 with the field's own declared width, its result depending only
on the width-many bytes there, never on the field's position; on the concrete
two-u8-field command both fields therefore store the byte at offset 6. -/
theorem multi_field_decode_reads_offset_6 :
    (∀ (sensors s' : MamboSensors) (enums : List ((String × String) × List String))
        (data : List Nat) (name : String) (ds : Option String)
        (rest : List (String × Option String)) (v : PyVal),
      decode_sensor_value ds data = Except.ok v →
      sensors.update name v enums = some s' →
      update_sensors_loop sensors enums data ((name, ds) :: rest)
        = update_sensors_loop s' enums data rest) ∧
    (∀ (sensors : MamboSensors) (enums : List ((String × String) × List String))
        (data : List Nat) (name : String) (ds : Option String)
        (rest : List (String × Option String)) (e : String),
      decode_sensor_value ds data = Except.error e →
      update_sensors_loop sensors enums data ((name, ds) :: rest) = (some e, sensors)) ∧
    (∀ (ds : Option String) (w : Nat) (d1 d2 : List Nat),
      declared_width ds = some w →
      (d1.drop 6).take w = (d2.drop 6).take w →
      d1.length = d2.length →
      decode_sensor_value ds d1 = decode_sensor_value ds d2) ∧
    (∀ p0 p1 : Nat,
      dictGet ((update_sensors mamboCx [4, 9, 2, 10, 5, 0, p0, p1] false).2.1.sensors.unknown_sensors)
          "Two_A" = some (PyVal.int p0) ∧
      dictGet ((update_sensors mamboCx [4, 9, 2, 10, 5, 0, p0, p1] false).2.1.sensors.unknown_sensors)
          "Two_B" = some (PyVal.int p0)) := by
  refine ⟨?_, ?_, ?_, ?_⟩
  · intro sensors s' enums data name ds rest v h1 h2
    simp [update_sensors_loop, h1, h2]
  · intro sensors enums data name ds rest e h1
    simp [update_sensors_loop, h1]
  · intro ds w d1 d2 hw hbytes hlen
    unfold declared_width at hw
    split_ifs at hw with h1 h2 h3 h4
    · injection hw with hw
      subst hw
      rcases h1 with rfl | rfl | rfl | rfl <;>
        exact unpack_value_at_6_congr d1 d2 1 _ hbytes hlen
    · injection hw with hw
      subst hw
      rcases h2 with rfl | rfl <;>
        exact unpack_value_at_6_congr d1 d2 2 _ hbytes hlen
    · injection hw with hw
      subst hw
      rcases h3 with rfl | rfl | rfl <;>
        exact unpack_value_at_6_congr d1 d2 4 _ hbytes hlen
    · injection hw with hw
      subst hw
      rcases h4 with rfl | rfl | rfl <;>
        exact unpack_value_at_6_congr d1 d2 8 _ hbytes hlen
  · intro p0 p1
    exact ⟨rfl, rfl⟩

/-- Witness for the amended C8: the u8 head field of the two-field command is
decoded (value 42, the byte at offset 6) and stored, the loop continuing with
the remaining fields; a u16 decode depends only on the two bytes at offset 6,
so two frames agreeing there (and in length) decode equally. -/
theorem multi_field_decode_reads_offset_6_witness :
    (update_sensors_loop MamboSensors.init [] [4, 9, 2, 10, 5, 0, 42, 99]
        [("Two_A", some "u8"), ("Two_B", some "u8")]
      = update_sensors_loop
          { MamboSensors.init with unknown_sensors := [("Two_A", PyVal.int 42)] }
          [] [4, 9, 2, 10, 5, 0, 42, 99] [("Two_B", some "u8")]) ∧
    (decode_sensor_value (some "u16") [0, 0, 0, 0, 0, 0, 10, 20, 30]
      = decode_sensor_value (some "u16") [1, 2, 3, 4, 5, 6, 10, 20, 99]) := by
  constructor
  · exact multi_field_decode_reads_offset_6.1 MamboSensors.init
      { MamboSensors.init with unknown_sensors := [("Two_A", PyVal.int 42)] }
      [] [4, 9, 2, 10, 5, 0, 42, 99] "Two_A" (some "u8") [("Two_B", some "u8")]
      (PyVal.int 42) rfl (by decide)
  · exact multi_field_decode_reads_offset_6.2.2.1 (some "u16") 2
      [0, 0, 0, 0, 0, 0, 10, 20, 30] [1, 2, 3, 4, 5, 6, 10, 20, 99]
      rfl (by decide) rfl

end Pymambo
